import Mathlib

/-!
Verification development for the RevU repository: a shallow embedding of the
review core found in `src/app.py` and `src/.github/bots/llm_reviewer.py`
(the process runner, tool adapters, quick-fix engine, runtime smoke test,
parse checks and traceback scraping), together with theorems settling the
frozen claims about its specification.

Source texts are modelled as lists of characters; Python functions over
strings become Lean functions over `List Char`.  External collaborators
(the Python compiler and interpreter, process spawning, `json.loads`,
`difflib`) are passed in as explicit oracle parameters, since they are
black boxes at the component boundary; everything the repository itself
computes — branch structure, regular expressions, string handling,
messages — is embedded directly from the source.
-/

set_option maxRecDepth 4096

namespace RevU

/-- Source text, modelled as a list of characters. -/
abbrev Src := List Char

/-! ## Basic character classes and text utilities -/

/-- Python `str.strip` whitespace class restricted to the ASCII range:
space, tab, newline, carriage return, vertical tab, form feed. -/
def isPySpace (c : Char) : Bool :=
  c = ' ' || c = '\t' || c = '\n' || c = '\r' || c = '\x0b' || c = '\x0c'

/-- ASCII decimal digit test. -/
def isDigitCh (c : Char) : Bool := '0' ≤ c && c ≤ '9'

/-- Python regex word class `\w` restricted to ASCII: letters, digits,
underscore. -/
def isWordCh (c : Char) : Bool :=
  ('a' ≤ c && c ≤ 'z') || ('A' ≤ c && c ≤ 'Z') || isDigitCh c || c = '_'

/-- Python `text.strip()`: drop leading and trailing whitespace. -/
def pyStrip (s : Src) : Src :=
  ((s.dropWhile isPySpace).reverse.dropWhile isPySpace).reverse

/-- Python `text.rstrip()`: drop trailing whitespace. -/
def pyRstrip (s : Src) : Src := (s.reverse.dropWhile isPySpace).reverse

/-- Convert a run of decimal digit characters to a natural number, mirroring
Python `int(text)` on the digit strings captured by the traceback regex. -/
def digitsToNat (s : Src) : Nat :=
  s.foldl (fun acc c => acc * 10 + (c.toNat - '0'.toNat)) 0

/-! ## A small backtracking regex engine

The traceback scraping in `app.py` is driven by the Python regular
expression `TRACE_RE` compiled with the DOTALL and MULTILINE flags, and the
quick-fix engine in `.github/bots/llm_reviewer.py` matches each line
against the `_BLOCK_HEADERS` patterns with `re.match`.  The engine below
implements exactly the constructs those patterns use, with Python
ordered-backtracking semantics: the alternatives explored by a match are
produced in preference order and the first one is the match. -/

/-- Regular-expression abstract syntax covering the constructs used by
the patterns in the repository.  Character classes are predicates;
`starG` is a greedy and `starL` a lazy Kleene star over a class; `opt` is
the greedy optional group; `grp` is a numbered capture group. -/
inductive RE where
  | eps : RE
  | bol : RE
  | eol : RE
  | one (p : Char → Bool) : RE
  | lit (s : Src) : RE
  | starG (p : Char → Bool) : RE
  | starL (p : Char → Bool) : RE
  | cat (a b : RE) : RE
  | opt (a : RE) : RE
  | grp (i : Nat) (a : RE) : RE

/-- Captured groups of a match: group index paired with captured text. -/
abbrev Caps := List (Nat × Src)

/-- Engine state: the consumed text reversed, then the remaining text. -/
abbrev MatchState := Src × Src

/-- All ways a star over a character class can consume input, listed from
zero consumption upward (lazy order). -/
def starSplits (p : Char → Bool) : Src → Src → List MatchState
  | rv, [] => [(rv, [])]
  | rv, c :: rest =>
    (rv, c :: rest) :: (if p c then starSplits p (c :: rv) rest else [])

/-- Run a regular expression at a position given by a zipper state.
Returns every way the expression can match there, in Python backtracking
preference order, each with its end state and captured groups. -/
def runRE : RE → Src → Src → List (MatchState × Caps)
  | .eps, rv, rs => [((rv, rs), [])]
  | .bol, rv, rs =>
    if rv.head?.getD '\n' = '\n' then [((rv, rs), [])] else []
  | .eol, rv, rs =>
    if rs.head?.getD '\n' = '\n' then [((rv, rs), [])] else []
  | .one p, rv, rs =>
    match rs with
    | [] => []
    | c :: rest => if p c then [((c :: rv, rest), [])] else []
  | .lit s, rv, rs =>
    if s.isPrefixOf rs then [((s.reverse ++ rv, rs.drop s.length), [])] else []
  | .starG p, rv, rs => (starSplits p rv rs).reverse.map (fun st => (st, []))
  | .starL p, rv, rs => (starSplits p rv rs).map (fun st => (st, []))
  | .cat a b, rv, rs =>
    (runRE a rv rs).flatMap (fun x =>
      (runRE b x.1.1 x.1.2).map (fun y => (y.1, x.2 ++ y.2)))
  | .opt a, rv, rs => runRE a rv rs ++ [((rv, rs), [])]
  | .grp i a, rv, rs =>
    (runRE a rv rs).map (fun x =>
      (x.1, x.2 ++ [(i, rs.take (rs.length - x.1.2.length))]))

/-- The first (preferred) match of the expression at the given position,
mirroring a successful `re.match` attempt at that position. -/
def tryMatchAt (r : RE) (rv rs : Src) : Option (MatchState × Caps) :=
  (runRE r rv rs).head?

/-- Scan for all non-overlapping matches from left to right, mirroring
`re.finditer`: at each position try a match; on success continue after the
consumed text, advancing by one character on an empty match or a failure.
The fuel argument bounds the scan by the input length. -/
def finditerAux (r : RE) : Nat → Src → Src → List Caps
  | 0, _, _ => []
  | fuel + 1, rv, rs =>
    match tryMatchAt r rv rs with
    | some (st, caps) =>
      if st.2.length < rs.length then caps :: finditerAux r fuel st.1 st.2
      else
        match rs with
        | [] => [caps]
        | c :: rest => caps :: finditerAux r fuel (c :: rv) rest
    | none =>
      match rs with
      | [] => []
      | c :: rest => finditerAux r fuel (c :: rv) rest

/-- All matches of the expression in the text, as their capture lists, in
left-to-right order, mirroring `re.finditer`. -/
def finditer (r : RE) (s : Src) : List Caps :=
  finditerAux r (s.length + 1) [] s

/-- Look up a numbered group in a capture list, mirroring `m.group(i)`
returning `None` for a group that did not participate in the match. -/
def capGroup (caps : Caps) (i : Nat) : Option Src :=
  (caps.find? (fun x => x.1 = i)).map (fun x => x.2)

/-! ## TRACE_RE and parse_first_exception from app.py -/

/-- Any character: under the DOTALL flag the dot also matches newline. -/
def anyCh (_ : Char) : Bool := true

/-- Characters other than newline, the class written `[^\n]` (also the
dot without the DOTALL flag). -/
def notNl (c : Char) : Bool := !(c = '\n')

/-- ASCII letters and underscore, the class written `[A-Za-z_]`. -/
def isAlphaU (c : Char) : Bool :=
  ('a' ≤ c && c ≤ 'z') || ('A' ≤ c && c ≤ 'Z') || c = '_'

/-- Word characters and the dot, the class written `[\w\.]`. -/
def isWordDot (c : Char) : Bool := isWordCh c || c = '.'

/-- The traceback-scraping regular expression of `app.py`, compiled with
DOTALL and MULTILINE.  Group numbers follow the named groups in order:
1 = file, 2 = line, 3 = code, 4 = etype, 5 = emsg.  The original pattern:
`^\s*File "(?P<file>.+?)", line (?P<line>\d+),.*?\n(?P<code>[^\n]*?)\n`
followed by `(?P<etype>[A-Za-z_][\w\.]*)(?:: (?P<emsg>.*))?$`. -/
def TRACE_RE : RE :=
  .cat .bol <| .cat (.starG isPySpace) <| .cat (.lit ("File \"").data) <|
  .cat (.grp 1 (.cat (.one anyCh) (.starL anyCh))) <|
  .cat (.lit ("\", line ").data) <|
  .cat (.grp 2 (.cat (.one isDigitCh) (.starG isDigitCh))) <|
  .cat (.lit (",").data) <|
  .cat (.starL anyCh) <| .cat (.lit ("\n").data) <|
  .cat (.grp 3 (.starL notNl)) <| .cat (.lit ("\n").data) <|
  .cat (.grp 4 (.cat (.one isAlphaU) (.starG isWordDot))) <|
  .cat (.opt (.cat (.lit (": ").data) (.grp 5 (.starG anyCh)))) .eol

/-- Helper for `pySplitlines`: the first argument accumulates the current
line in reverse; a final empty accumulator after a line break produces no
trailing empty line, as in Python. -/
def pySplitlinesAux : Src → Src → List Src
  | acc, [] => if acc.isEmpty then [] else [acc.reverse]
  | acc, '\r' :: '\n' :: r => acc.reverse :: pySplitlinesAux [] r
  | acc, '\r' :: r => acc.reverse :: pySplitlinesAux [] r
  | acc, '\n' :: r => acc.reverse :: pySplitlinesAux [] r
  | acc, c :: r => pySplitlinesAux (c :: acc) r

/-- Python `text.splitlines()` restricted to the line breaks that occur in
the captured streams: LF, CR and CRLF.  Unlike `split("\n")` it produces
no final empty line for text ending in a line break. -/
def pySplitlines (s : Src) : List Src := pySplitlinesAux [] s

/-- Record shape produced by the exception scraper in `app.py`: the keys
Rule, Message, Line, File of the runtime finding dictionary. -/
structure ExcRecord where
  rule : Src
  message : Src
  line : Option Nat
  file : Src
deriving DecidableEq

/-- Faithful embedding of `parse_first_exception` from `app.py`: take the
last `TRACE_RE` match of the error stream; otherwise fall back to the last
non-empty line, split once at a colon into rule and message when one is
present; return nothing for a blank stream. -/
def parse_first_exception (stderr : Src) : Option ExcRecord :=
  let ms := finditer TRACE_RE stderr
  match ms.getLast? with
  | some m =>
    some { rule := pyStrip ((capGroup m 4).getD [])
           message := pyStrip ((capGroup m 5).getD [])
           line := some (digitsToNat ((capGroup m 2).getD []))
           file := (capGroup m 1).getD [] }
  | none =>
    let ls := (pySplitlines (pyStrip stderr)).filter
      (fun ln => !(pyStrip ln).isEmpty)
    match ls.getLast? with
    | none => none
    | some last =>
      if last.contains ':' then
        let etype := last.takeWhile (fun c => !(c = ':'))
        let emsg := (last.drop etype.length).drop 1
        some { rule := pyStrip etype, message := pyStrip emsg,
               line := none, file := ("<user_code>").data }
      else
        some { rule := pyStrip last, message := [],
               line := none, file := ("<user_code>").data }

/-! ## Common finding records -/

/-- Normalized diagnostic record of `app.py`: the dictionary keys Rule,
Message, Line, Column, File, Severity used across its checks. -/
structure Finding where
  rule : Src
  message : Src
  line : Option Nat
  column : Option Nat
  file : Src
  severity : Option Src
deriving DecidableEq

/-- Normalized row of `.github/bots/llm_reviewer.py`: the keys Source,
Rule, Type, Message, Line, Column, File, Severity/Level produced by its
`_norm_row` helper. -/
structure NormRow where
  source : Src
  rule : Src
  typ : Src
  message : Src
  line : Option Nat
  column : Option Nat
  file : Src
  severity : Option Src
deriving DecidableEq

/-- Faithful embedding of `_norm_row` from
`src/.github/bots/llm_reviewer.py` lines 191-197: pack the fields into the
common row shape. -/
def _norm_row (source rule typ msg : Src) (line col : Option Nat)
    (file : Src) (sev : Option Src) : NormRow :=
  ⟨source, rule, typ, msg, line, col, file, sev⟩

/-! ## ProcessRunner -/

/-- Outcome of attempting to spawn an external command: the three cases
`subprocess.run` can produce for the caller of `_run` (the spawn itself is
the outside world, so it enters as an oracle). -/
inductive ProcOutcome where
  | notFound : ProcOutcome
  | timedOut : ProcOutcome
  | completed (exitCode : Int) (stdout stderr : Src) : ProcOutcome
deriving DecidableEq

/-- Captured result of a process invocation: exit code and both streams. -/
structure RunResult where
  exitCode : Int
  stdout : Src
  stderr : Src
deriving DecidableEq

/-- The explanatory stderr text `_run` produces for a missing executable:
the Python f-string `f"{cmd[0]}: not installed"` (the callers always pass
a non-empty command, so the head default is never taken). -/
def notInstalledMsg (cmd : List Src) : Src :=
  (cmd.head?.getD []) ++ (": not installed").data

/-- Faithful embedding of `_run` from `src/.github/bots/llm_reviewer.py`
lines 174-181: `FileNotFoundError` becomes the sentinel 127 with empty
stdout and the explanatory stderr; `TimeoutExpired` becomes the sentinel
124 with stderr `timeout`; otherwise the real exit code and streams are
returned verbatim. -/
def _run (spawn : List Src → ProcOutcome) (cmd : List Src) : RunResult :=
  match spawn cmd with
  | .notFound => ⟨127, [], notInstalledMsg cmd⟩
  | .timedOut => ⟨124, [], ("timeout").data⟩
  | .completed rc out err => ⟨rc, out, err⟩

/-! ## ToolAdapters: run_ruff and run_bandit -/

/-- Result of an adapter call as seen by its caller: either a normal
return of rows plus an optional note, or an exception propagating out of
the adapter (Python has no checked exceptions, so the raising control
path is made explicit in the embedding). -/
inductive AdapterOutcome where
  | ok (rows : List NormRow) (note : Option Src) : AdapterOutcome
  | raised (exc : Src) : AdapterOutcome
deriving DecidableEq

/-- Faithful embedding of `run_ruff` from
`src/.github/bots/llm_reviewer.py` lines 277-295.  Exit code 127 reports
the tool as not installed; empty stripped stdout returns no rows; then
`json.loads(out)` runs with NO exception handler, so when the output
parser (an oracle for `json.loads` plus the row mapping, since the tool
JSON schema is a black box) fails, the exception propagates out of the
adapter. -/
def run_ruff (res : RunResult)
    (parseRuffJson : Src → Option (List NormRow)) : AdapterOutcome :=
  if res.exitCode = 127 then .ok [] (some (("Ruff not installed").data))
  else if (pyStrip res.stdout).isEmpty then .ok [] none
  else
    match parseRuffJson res.stdout with
    | some rows => .ok rows none
    | none => .raised (("json.decoder.JSONDecodeError").data)

/-- Faithful embedding of `run_bandit` from
`src/.github/bots/llm_reviewer.py` lines 356-376.  Unlike `run_ruff`, its
`json.loads` sits inside `try ... except Exception: pass`, so a parse
failure is swallowed and the empty row list is returned. -/
def run_bandit (res : RunResult)
    (parseBanditJson : Src → Option (List NormRow)) : AdapterOutcome :=
  if res.exitCode = 127 then .ok [] (some (("Bandit not installed").data))
  else if (pyStrip res.stdout).isEmpty then .ok [] none
  else
    match parseBanditJson res.stdout with
    | some rows => .ok rows none
    | none => .ok [] none

/-! ## Built-in parse checks -/

/-- Exception raised by the Python compiler or parser, as consumed by the
checks: exception class name, message, and optional position. -/
structure PyExc where
  ename : Src
  emsg : Src
  lineno : Option Nat
  offset : Option Nat
deriving DecidableEq

/-- Faithful embedding of `compile_check` from `src/app.py` lines
230-241: the built-in `compile` call (the external Python compiler, an
oracle here) either succeeds, giving no findings, or raises one
exception, giving exactly one record with the exception class name,
message and position. -/
def compile_check (compileExc : Src → Option PyExc) (src : Src) :
    List Finding :=
  match compileExc src with
  | none => []
  | some e => [⟨e.ename, e.emsg, e.lineno, e.offset, ("<user_code>").data, none⟩]

/-- Faithful embedding of `check_ast_syntax` from
`src/.github/bots/llm_reviewer.py` lines 238-245: one `ast.parse` attempt
(the parser is an oracle); a raised SyntaxError appends exactly one row
with source AST, rule and type SyntaxError, the message and position. -/
def check_ast (astParse : Src → Option PyExc) (codeText : Src) :
    List NormRow :=
  match astParse codeText with
  | none => []
  | some e =>
    [_norm_row (("AST").data) (("SyntaxError").data) (("SyntaxError").data)
      e.emsg e.lineno e.offset (("<input>").data) none]

/-! ## QuickFixEngine from llm_reviewer.py

The `_BLOCK_HEADERS` tuple at `src/.github/bots/llm_reviewer.py` lines
200-212 holds raw strings with doubled backslashes, e.g.
`r"^\\s*(if\\s+.*)"`.  As regular expressions these read: an escaped
backslash matching one literal backslash character, then the literal
letter `s` repeated — NOT the whitespace class `\s` — so every pattern
demands a literal backslash at the start of the line and can never match
an ordinary Python header line.  The encodings below transcribe the
patterns character-for-character with that reading. -/

/-- One literal backslash character, the regex atom written `\\`. -/
def bsl : RE := .one (fun c => c = '\\')

/-- Zero or more literal `s` characters, the regex piece `s*`. -/
def sStar : RE := .starG (fun c => c = 's')

/-- One or more literal `s` characters, the regex piece `s+`. -/
def sPlus : RE := .cat (.one (fun c => c = 's')) (.starG (fun c => c = 's'))

/-- One or more literal `w` characters, the regex piece `w+`. -/
def wPlus : RE := .cat (.one (fun c => c = 'w')) (.starG (fun c => c = 'w'))

/-- Greedy dot star without DOTALL, the regex piece `.*`. -/
def dotStar : RE := .starG notNl

/-- Faithful transcriptions of the eleven `_BLOCK_HEADERS` patterns
(group parentheses dropped: only match success matters to the caller).
For example `^\\s*(def\\s+\\w+\\s*\\(.*\\)\\s*)` reads: start, literal
backslash, `s*`, `def`, backslash, `s+`, backslash, `w+`, backslash,
`s*`, backslash (from `\\(`), `.*`, backslash (from `\\)`), backslash,
`s*` (from `\\s*`). -/
def _BLOCK_HEADERS : List RE :=
  [ .cat .bol <| .cat bsl <| .cat sStar <| .cat (.lit ("def").data) <|
      .cat bsl <| .cat sPlus <| .cat bsl <| .cat wPlus <| .cat bsl <|
      .cat sStar <| .cat bsl <| .cat dotStar <| .cat bsl <| .cat bsl sStar,
    .cat .bol <| .cat bsl <| .cat sStar <| .cat (.lit ("class").data) <|
      .cat bsl <| .cat sPlus <| .cat bsl <| .cat wPlus <| .cat bsl sStar,
    .cat .bol <| .cat bsl <| .cat sStar <| .cat (.lit ("if").data) <|
      .cat bsl <| .cat sPlus dotStar,
    .cat .bol <| .cat bsl <| .cat sStar <| .cat (.lit ("elif").data) <|
      .cat bsl <| .cat sPlus dotStar,
    .cat .bol <| .cat bsl <| .cat sStar <| .cat (.lit ("else").data) <|
      .cat bsl sStar,
    .cat .bol <| .cat bsl <| .cat sStar <| .cat (.lit ("for").data) <|
      .cat bsl <| .cat sPlus dotStar,
    .cat .bol <| .cat bsl <| .cat sStar <| .cat (.lit ("while").data) <|
      .cat bsl <| .cat sPlus dotStar,
    .cat .bol <| .cat bsl <| .cat sStar <| .cat (.lit ("try").data) <|
      .cat bsl sStar,
    .cat .bol <| .cat bsl <| .cat sStar <| .cat (.lit ("except").data) <|
      .cat (.opt (.cat bsl <| .cat sPlus dotStar)) <| .cat bsl sStar,
    .cat .bol <| .cat bsl <| .cat sStar <| .cat (.lit ("finally").data) <|
      .cat bsl sStar,
    .cat .bol <| .cat bsl <| .cat sStar <| .cat (.lit ("with").data) <|
      .cat bsl <| .cat sPlus dotStar ]

/-- Whether some `_BLOCK_HEADERS` pattern matches the line, mirroring the
`for rx in header_regexes: if rx.match(line)` loop (only whether a first
pattern matches is observable: the edit does not depend on which). -/
def matchBlockHeader (line : Src) : Bool :=
  _BLOCK_HEADERS.any (fun p => (tryMatchAt p [] line).isSome)

/-- Faithful embedding of `_needs_colon` from
`src/.github/bots/llm_reviewer.py` lines 214-219: strip the line; an
empty or comment-only line needs nothing; otherwise take the part before
the FIRST `#` (Python `split("#", 1)[0]`), right-strip it, and report
whether it fails to end with a colon. -/
def _needs_colon (line : Src) : Bool :=
  let stripped := pyStrip line
  if stripped.isEmpty then false
  else if stripped.head? = some '#' then false
  else
    !((pyRstrip (stripped.takeWhile (fun c => !(c = '#')))).getLast? = some ':')

/-- The loop body of `apply_quick_fixes` for one line: when a header
pattern matches and the line needs a colon, replace it by
`line.rstrip() + ":  # [AUTO-FIXED]"`.  Returns the edited flag and the
resulting line. -/
def fixLineQuick (line : Src) : Bool × Src :=
  if matchBlockHeader line then
    if _needs_colon line then (true, pyRstrip line ++ (":  # [AUTO-FIXED]").data)
    else (false, line)
  else (false, line)

/-- 1-based numbers of the lines the quick-fix loop edits, in order. -/
def editedNums : List Src → Nat → List Nat
  | [], _ => []
  | l :: rest, n =>
    if (fixLineQuick l).1 then n :: editedNums rest (n + 1)
    else editedNums rest (n + 1)

/-- The two-character text backslash-n: the joining string of
`apply_quick_fixes` is the Python literal `"\\n"`, which denotes a
backslash followed by the letter n, not a newline. -/
def LIT_NL : Src := '\\' :: 'n' :: []

/-- Faithful embedding of `apply_quick_fixes` from
`src/.github/bots/llm_reviewer.py` lines 221-235: split into lines with
`splitlines()`, patch each line matching a header pattern that needs a
colon, then join with the literal two-character `\n` text (so every
multi-line input has its real newlines replaced), re-appending that
literal when the original ended with it.  Returns the joined text and
the 1-based edited line numbers. -/
def apply_quick_fixes (original : Src) : Src × List Nat :=
  let lines := pySplitlines original
  let fixedLines := lines.map (fun l => (fixLineQuick l).2)
  let fixed := List.intercalate LIT_NL fixedLines
  let fixed2 :=
    if LIT_NL.isSuffixOf original && !(LIT_NL.isSuffixOf fixed) then
      fixed ++ LIT_NL
    else fixed
  (fixed2, editedNums lines 1)

/-! ## Runtime smoke test from llm_reviewer.py -/

/-- Result quadruple of `run_smoke_test`: the runtime rows, the optional
note (skip reason or applied-fixes message), the executed code when
execution was reached, and the quick-fix diff text when fixes were
applied. -/
structure SmokeResult where
  rows : List NormRow
  note : Option Src
  usedCode : Option Src
  diffText : Option Src
deriving DecidableEq

/-- The note `f"Applied safe quick fixes on lines: {edited}"`, with the
Python list repr of the edited line numbers. -/
def quickFixNote (edited : List Nat) : Src :=
  ("Applied safe quick fixes on lines: ").data ++
    '[' :: List.intercalate ((", ").data)
      (edited.map (fun n => Nat.toDigits 10 n)) ++ [']']

/-- The message computation at `src/.github/bots/llm_reviewer.py` lines
505-506: `msg = (err or out).strip()` then
`msg.splitlines()[0] if msg else "Runtime error"` — the FIRST line of the
stripped error stream, or of stdout when stderr is empty. -/
def smokeFirstLine (out err : Src) : Src :=
  let msg := pyStrip (if err.isEmpty then out else err)
  if msg.isEmpty then ("Runtime error").data
  else (pySplitlines msg).headD []

/-- Execution step of `run_smoke_test` (lines 497-508): run the python
interpreter on the used code through `_run`; a non-zero exit appends one
Runtime row whose message is the first line of the stripped streams.  The
outcome of spawning python on the given source is the oracle. -/
def execSmoke (pythonRun : Src → ProcOutcome) (usedCode : Src)
    (note diffText : Option Src) : SmokeResult :=
  let r := _run (fun _ => pythonRun usedCode) [("python").data]
  let rows :=
    if r.exitCode = 0 then []
    else [_norm_row (("Runtime").data) [] (("Runtime").data)
      (smokeFirstLine r.stdout r.stderr) none none (("<input>").data) none]
  ⟨rows, note, some usedCode, diffText⟩

/-- Faithful embedding of `run_smoke_test` from
`src/.github/bots/llm_reviewer.py` lines 466-511, keeping its branch
order: probing disabled; the source compiles as-is, execute it; quick fix
allowed, apply it and execute the fixed source when it was edited and
compiles (recording the note and the `difflib` diff, an oracle),
otherwise skip; quick fix not allowed, skip.  The compile check
(`compile()`) and the interpreter run are oracles. -/
def run_smoke_test (runSmoke : Bool) (canCompile : Src → Bool)
    (pythonRun : Src → ProcOutcome) (mkUdiff : Src → Src → Src)
    (codeText : Src) (maybeFix : Bool) : SmokeResult :=
  if !runSmoke then ⟨[], some (("Runtime test disabled").data), none, none⟩
  else if canCompile codeText then execSmoke pythonRun codeText none none
  else if maybeFix then
    let fx := apply_quick_fixes codeText
    if !fx.2.isEmpty && canCompile fx.1 then
      execSmoke pythonRun fx.1 (some (quickFixNote fx.2))
        (some (mkUdiff codeText fx.1))
    else
      ⟨[], some (("Skipped runtime (does not compile, even after quick fixes)").data),
       none, none⟩
  else
    ⟨[], some (("Skipped runtime (does not compile; enable quick fixes to attempt)").data),
     none, none⟩

/-! ## The review handler of app.py

Faithful embedding of the `run_clicked` block of `app.py` at the
orchestration level: the guard on empty input, the language gate, and the
stage sequence compile check, optional runtime probe, Ruff, static scans,
optional AI.  The per-stage analyses enter as function parameters (they
are embedded separately where a claim is about their internals), and the
trace of invoked stages makes the side effect of spawning each stage
observable. -/

/-- Outcome of the sandboxed execution of the snippet as seen by the
`app.py` handler: the probe either times out or runs to completion. -/
inductive ExecOutcome where
  | timedOut : ExecOutcome
  | ran (stdout stderr : Src) (exitCode : Int) : ExecOutcome
deriving DecidableEq

/-- Stages the handler can invoke, in its fixed documented order. -/
inductive Stage where
  | compileStage : Stage
  | runtimeStage : Stage
  | ruffStage : Stage
  | securityStage : Stage
  | aiStage : Stage
deriving DecidableEq

/-- The per-tool findings dictionary assembled by the handler, with the
keys compile, runtime, warnings, ruff, security of `all_findings`. -/
structure AllFindings where
  compileF : List Finding
  runtimeF : List Finding
  warningsF : List Finding
  ruffF : List Finding
  securityF : List Finding
deriving DecidableEq

/-- Outcome of the Ruff stage as seen by the handler: not installed,
failed with a message, or a result list. -/
inductive RuffOutcome where
  | notInstalled : RuffOutcome
  | failed (msg : Src) : RuffOutcome
  | results (rs : List Finding) : RuffOutcome
deriving DecidableEq

/-- Result of one click of the review button: an optional rejection
message (the input guard), the trace of invoked stages, and the assembled
report when one was produced. -/
structure HandlerResult where
  rejection : Option Src
  invoked : List Stage
  report : Option AllFindings
deriving DecidableEq

/-- The user-facing rejection message of the empty-input guard. -/
def pasteFirstMsg : Src := ("Please paste code or upload a file first.").data

/-- Exception class names that block the runtime probe. -/
def blockerRules : List Src :=
  [("SyntaxError").data, ("IndentationError").data, ("TabError").data]

/-- Faithful embedding of the `run_clicked` block of `app.py`: reject
empty or whitespace-only input before anything runs; short-circuit
non-Python input; otherwise run the compile check, the optional runtime
probe when enabled and not blocked by a syntax-class finding, Ruff, the
static scans, and optionally the AI stage, assembling the findings
dictionary and the stage trace. -/
def run_clicked (isPython : Src → Option Src → Bool)
    (compileFn : Src → List Finding) (probeFn : Src → ExecOutcome)
    (warnFn : Src → List Finding) (ruffFn : Src → RuffOutcome)
    (staticFn : Src → List Finding)
    (runRuntime showWarnings useAI : Bool)
    (code : Src) (filename : Option Src) : HandlerResult :=
  if code.isEmpty || (pyStrip code).isEmpty then ⟨some pasteFirstMsg, [], none⟩
  else if !(isPython code filename) then ⟨none, [], none⟩
  else
    let comp := compileFn code
    let hasBlockers := comp.any (fun r => blockerRules.contains r.rule)
    let runtimeInvoked := runRuntime && !hasBlockers
    let probed :=
      if runtimeInvoked then
        match probeFn code with
        | .timedOut => ([], [])
        | .ran _ err _ =>
          let rf :=
            match parse_first_exception err with
            | some e => [(⟨e.rule, e.message, e.line, none, e.file, none⟩ : Finding)]
            | none => []
          (rf, if showWarnings then warnFn err else [])
      else ([], [])
    let ruffF :=
      match ruffFn code with
      | .results rs => rs
      | _ => []
    let stages :=
      [Stage.compileStage] ++
      (if runtimeInvoked then [Stage.runtimeStage] else []) ++
      [Stage.ruffStage, Stage.securityStage] ++
      (if useAI then [Stage.aiStage] else [])
    ⟨none, stages, some ⟨comp, probed.1, probed.2, ruffF, staticFn code⟩⟩

/-! ## Concrete inputs used by the claim theorems and witnesses -/

/-- A snippet consisting only of an unterminated `if` header and a body:
the exact shape the quick-fix engine is documented to repair. -/
def unterminatedIfSnippet : Src := ("if True\n    x = 1").data

/-- A two-line source text that is valid Python. -/
def twoLineSnippet : Src := ("x = 1\ny = 2").data

/-- A single line that one of the literal-backslash `_BLOCK_HEADERS`
patterns does match (backslash, `if`, backslash, `s`), carrying its own
trailing comment — the shape on which the quick-fix engine re-patches the
line on every application, because `_needs_colon` strips at the first
comment character, which belongs to the user comment, not the marker. -/
def commentedHeaderLine : Src := ("\\if\\s x # note").data

/-- The error stream CPython 3.11+ emits when executing the snippet
`x = 1/0` from a file, including the caret marker line under the failing
expression. -/
def zdeStderrMarked : Src :=
  ("Traceback (most recent call last):\n  File \"/tmp/revu_1/snippet.py\", line 1, in <module>\n    x = 1/0\n        ~^~\nZeroDivisionError: division by zero\n").data

/-- The error stream CPython 3.10 and earlier emit for the same snippet,
without the caret marker line. -/
def zdeStderrPlain : Src :=
  ("Traceback (most recent call last):\n  File \"/tmp/revu_1/snippet.py\", line 1, in <module>\n    x = 1/0\nZeroDivisionError: division by zero\n").data

/-! ## Lemmas about the smoke test -/

theorem execSmoke_timeout (pythonRun : Src → ProcOutcome) (used : Src)
    (note diffText : Option Src) (h : pythonRun used = ProcOutcome.timedOut) :
    (execSmoke pythonRun used note diffText).rows.map (fun r => r.message) =
      [("timeout").data] := by
  unfold execSmoke
  rw [show _run (fun _ => pythonRun used) [("python").data] =
        ⟨124, [], ("timeout").data⟩ from by unfold _run; rw [h]]
  dsimp only
  rw [show smokeFirstLine ([] : Src) (("timeout").data) = ("timeout").data
    from by decide]
  norm_num [_norm_row]

theorem run_smoke_test_compiles (canCompile : Src → Bool)
    (pythonRun : Src → ProcOutcome) (mkUdiff : Src → Src → Src)
    (codeText : Src) (maybeFix : Bool) (hc : canCompile codeText = true) :
    run_smoke_test true canCompile pythonRun mkUdiff codeText maybeFix =
      execSmoke pythonRun codeText none none := by
  unfold run_smoke_test
  simp [hc]

theorem run_smoke_test_fixed (canCompile : Src → Bool)
    (pythonRun : Src → ProcOutcome) (mkUdiff : Src → Src → Src)
    (codeText : Src) (hc : canCompile codeText = false)
    (hne : (apply_quick_fixes codeText).2 ≠ [])
    (hcf : canCompile (apply_quick_fixes codeText).1 = true) :
    run_smoke_test true canCompile pythonRun mkUdiff codeText true =
      execSmoke pythonRun (apply_quick_fixes codeText).1
        (some (quickFixNote (apply_quick_fixes codeText).2))
        (some (mkUdiff codeText (apply_quick_fixes codeText).1)) := by
  unfold run_smoke_test
  simp [hc, hcf, List.isEmpty_iff, hne]

/-! ## Claims -/

/-- Claim C1: the claim says every adapter swallows malformed tool output
and yields an empty finding list instead of propagating an exception.
The code contradicts it: `run_ruff` (llm_reviewer.py line 287) calls
`json.loads(out)` with no exception handler, so for any runner result
with a non-127 exit code and non-empty stdout the JSON parser rejects,
the exception propagates out of the adapter — while `run_bandit`, whose
parse sits in `try ... except: pass`, swallows the same failure as the
claim (and the spec contract) demands. -/
theorem ruff_malformed_output_raises (res : RunResult)
    (parse : Src → Option (List NormRow))
    (h127 : ¬ res.exitCode = 127)
    (hne : (pyStrip res.stdout).isEmpty = false)
    (hmal : parse res.stdout = none) :
    run_ruff res parse =
      AdapterOutcome.raised (("json.decoder.JSONDecodeError").data) ∧
    run_bandit res parse = AdapterOutcome.ok [] none := by
  unfold run_ruff run_bandit
  simp [h127, hne, hmal]

theorem ruff_malformed_output_raises_witness :
    run_ruff ⟨1, ("not json").data, []⟩ (fun _ => none) =
      AdapterOutcome.raised (("json.decoder.JSONDecodeError").data) ∧
    run_bandit ⟨1, ("not json").data, []⟩ (fun _ => none) =
      AdapterOutcome.ok [] none :=
  ruff_malformed_output_raises ⟨1, ("not json").data, []⟩ (fun _ => none)
    (by decide) (by decide) rfl

/-- Claim C2: the claim says a snippet whose only parse blocker is an
unterminated `if` header gets quick-fixed and executed.  The code
contradicts it: every `_BLOCK_HEADERS` pattern demands a literal
backslash at line start (the doubled backslashes in the raw strings), so
`apply_quick_fixes` edits nothing on the snippet, and `run_smoke_test`
returns the even-after-quick-fixes skip with no rows, no executed code
and no diff.  The compile oracle is constantly false here: neither the
snippet (missing colon) nor its unedited literal-backslash-n join
compiles. -/
theorem quickfix_never_matches_plain_header :
    (apply_quick_fixes unterminatedIfSnippet).2 = [] ∧
    run_smoke_test true (fun _ => false)
        (fun _ => ProcOutcome.completed 0 [] []) (fun _ _ => [])
        unterminatedIfSnippet true =
      ⟨[], some (("Skipped runtime (does not compile, even after quick fixes)").data),
       none, none⟩ := by
  constructor
  · decide
  · decide

/-- Claim C3: the claim says every successfully parsing source text comes
back unchanged with an empty edit list.  The code contradicts it on the
valid two-line program `x = 1` / `y = 2`: the edit list is empty, but the
join `"\\n".join(lines)` uses the literal two-character backslash-n text,
so the returned text differs from the input (its newline is gone). -/
theorem quickfix_mangles_valid_source :
    apply_quick_fixes twoLineSnippet = ((("x = 1\\ny = 2").data), []) ∧
    ¬ (("x = 1\\ny = 2").data = twoLineSnippet) := by
  constructor
  · decide
  · decide

/-- Claim C4: the claim says applying the quick-fix engine twice yields
what one application yields, the second pass making no further edits.
The code contradicts it: on a line one of the literal-backslash patterns
does match and which carries its own comment, `_needs_colon` strips at
the FIRST `#` — the user comment, not the appended marker — so every
pass re-appends `:  # [AUTO-FIXED]`.  The first conjunct shows the input
really is edited (so the case is exercised); the second refutes
idempotence at it. -/
theorem quickfix_not_idempotent_on_commented_header :
    (apply_quick_fixes commentedHeaderLine).2 = [1] ∧
    ¬ (apply_quick_fixes ((apply_quick_fixes commentedHeaderLine).1) =
        ((apply_quick_fixes commentedHeaderLine).1, [])) := by
  constructor
  · decide
  · decide

/-- Claim C5: for a command whose executable does not exist, the process
runner returns the reserved sentinel exit code 127 with empty stdout and
the non-empty explanatory stderr `cmd[0]: not installed`, and never
raises (it is a total function); 127 is the reserved value callers use to
tell tool-not-installed apart from a tool-reported failure. -/
theorem run_missing_executable_sentinel (spawn : List Src → ProcOutcome)
    (cmd : List Src) (h : spawn cmd = ProcOutcome.notFound) :
    _run spawn cmd = ⟨127, [], notInstalledMsg cmd⟩ ∧
    notInstalledMsg cmd ≠ [] := by
  constructor
  · unfold _run
    rw [h]
  · unfold notInstalledMsg
    intro hh
    exact absurd (List.append_eq_nil.mp hh).2 (by decide)

theorem run_missing_executable_sentinel_witness :
    _run (fun _ => ProcOutcome.notFound) [("ruff").data] =
      ⟨127, [], notInstalledMsg [("ruff").data]⟩ ∧
    notInstalledMsg [("ruff").data] ≠ [] :=
  run_missing_executable_sentinel (fun _ => ProcOutcome.notFound)
    [("ruff").data] rfl

/-- Claim C6: for empty or whitespace-only submitted source, the review
handler rejects the input before running anything: the result carries
exactly the user-facing rejection message, an empty trace of invoked
stages (no tool adapter, runtime probe, or AI call), and no report. -/
theorem empty_input_produces_single_rejection
    (isPython : Src → Option Src → Bool)
    (compileFn : Src → List Finding) (probeFn : Src → ExecOutcome)
    (warnFn : Src → List Finding) (ruffFn : Src → RuffOutcome)
    (staticFn : Src → List Finding)
    (runRuntime showWarnings useAI : Bool)
    (code : Src) (filename : Option Src)
    (hws : ∀ c ∈ code, isPySpace c = true) :
    run_clicked isPython compileFn probeFn warnFn ruffFn staticFn
        runRuntime showWarnings useAI code filename =
      ⟨some pasteFirstMsg, [], none⟩ := by
  have hstrip : pyStrip code = [] := by
    unfold pyStrip
    rw [List.dropWhile_eq_nil_iff.mpr hws]
    rfl
  unfold run_clicked
  rw [if_pos]
  simp [hstrip]

theorem empty_input_produces_single_rejection_witness :
    run_clicked (fun _ _ => true) (fun _ => []) (fun _ => ExecOutcome.ran [] [] 0)
        (fun _ => []) (fun _ => RuffOutcome.results []) (fun _ => [])
        true true true (("  \n\t ").data) none =
      ⟨some pasteFirstMsg, [], none⟩ :=
  empty_input_produces_single_rejection (fun _ _ => true) (fun _ => [])
    (fun _ => ExecOutcome.ran [] [] 0) (fun _ => [])
    (fun _ => RuffOutcome.results []) (fun _ => []) true true true
    (("  \n\t ").data) none (by decide)

/-- Claim C7: for the snippet `x = 1/0`, parsing the error stream the
interpreter emits (in both its with-caret-marker and plain traceback
forms) reports the first exception with type ZeroDivisionError and line
number 1, the line of the division statement, extracted from the last
traceback block of captured stderr. -/
theorem probe_reports_zero_division :
    parse_first_exception zdeStderrMarked =
      some { rule := ("ZeroDivisionError").data,
             message := ("division by zero").data,
             line := some 1, file := ("/tmp/revu_1/snippet.py").data } ∧
    parse_first_exception zdeStderrPlain =
      some { rule := ("ZeroDivisionError").data,
             message := ("division by zero").data,
             line := some 1, file := ("/tmp/revu_1/snippet.py").data } := by
  constructor <;> decide

/-- Claim C8, counterexample: the claim says an execution timeout is
reported with the message `execution did not complete in time`.  At a
concrete timed-out run the code reports the message `timeout` — the
first line of the stderr the runner substitutes on `TimeoutExpired` —
which is not the claimed text. -/
theorem timeout_message_counterexample :
    (run_smoke_test true (fun _ => true) (fun _ => ProcOutcome.timedOut)
        (fun _ _ => []) (("x = 1").data) false).rows.map
        (fun r => r.message) = [("timeout").data] ∧
    ¬ (("timeout").data = ("execution did not complete in time").data) := by
  constructor
  · decide
  · decide

/-- Claim C8, amended: whenever the sandboxed execution of the (possibly
quick-fixed) source times out, the smoke test reports a distinct Runtime
row whose message is the runner's timeout sentinel text `timeout`; the
timeout is not dropped from the rows (which the orchestrator merges into
the unified report unconditionally).  The reach hypothesis covers both
execution routes: the source compiles as-is, or quick fixes were applied
and the fixed source compiles. -/
theorem smoke_timeout_reported (canCompile : Src → Bool)
    (pythonRun : Src → ProcOutcome) (mkUdiff : Src → Src → Src)
    (codeText : Src) (maybeFix : Bool)
    (hreach : canCompile codeText = true ∨
      (maybeFix = true ∧ (apply_quick_fixes codeText).2 ≠ [] ∧
        canCompile (apply_quick_fixes codeText).1 = true))
    (ht : ∀ s, pythonRun s = ProcOutcome.timedOut) :
    (run_smoke_test true canCompile pythonRun mkUdiff codeText maybeFix).rows.map
      (fun r => r.message) = [("timeout").data] := by
  by_cases hc : canCompile codeText = true
  · rw [run_smoke_test_compiles canCompile pythonRun mkUdiff codeText maybeFix hc]
    exact execSmoke_timeout pythonRun codeText none none (ht codeText)
  · have hc' : canCompile codeText = false := by
      revert hc
      cases canCompile codeText <;> simp
    rcases hreach with h | ⟨hm, hne, hcf⟩
    · exact absurd h hc
    · subst hm
      rw [run_smoke_test_fixed canCompile pythonRun mkUdiff codeText hc' hne hcf]
      exact execSmoke_timeout pythonRun (apply_quick_fixes codeText).1 _ _
        (ht (apply_quick_fixes codeText).1)

theorem smoke_timeout_reported_witness :
    (run_smoke_test true (fun s => !(s == commentedHeaderLine))
        (fun _ => ProcOutcome.timedOut) (fun _ _ => [])
        commentedHeaderLine true).rows.map (fun r => r.message) =
      [("timeout").data] :=
  smoke_timeout_reported (fun s => !(s == commentedHeaderLine))
    (fun _ => ProcOutcome.timedOut) (fun _ _ => []) commentedHeaderLine true
    (Or.inr ⟨rfl, by decide, by decide⟩) (fun _ => rfl)

/-- Claim C10: each built-in parse check reports at most one finding per
invocation, whatever the compiler or parser oracle answers: only the
first syntax error the parse attempt raises is reported, even when the
source contains several independent syntax errors. -/
theorem parse_checks_report_single_finding
    (compileExc astParse : Src → Option PyExc) (src : Src) :
    (compile_check compileExc src).length ≤ 1 ∧
    (check_ast astParse src).length ≤ 1 := by
  unfold compile_check check_ast
  cases compileExc src <;> cases astParse src <;> simp

end RevU
